import Mathlib

/-!
Verification development for the vc-notify-bot rule evaluation and
notification delivery core.  The TypeScript source is shallowly embedded:
pure functions become Lean functions, the stateful suppression map becomes
explicit state passing with an explicit clock, fallible remote calls become
`Except`/`Option` values, and the store is a list of records.  Timestamps
are modelled as natural numbers (epoch milliseconds).
-/

namespace VcNotify

/-- Domain entity from src/types.ts: one persisted notification rule.
`createdAt`/`updatedAt` (JS `Date`) are modelled as epoch milliseconds. -/
structure NotificationRule where
  id : String
  guildId : String
  name : String
  watchedVoiceChannelIds : List String
  targetUserIds : List String
  notificationChannelId : String
  enabled : Bool
  createdAt : Nat
  updatedAt : Nat
deriving Repr, DecidableEq

/-- Payload handed from the voice-state handler to the notify service
(src/services/notifyService.ts `NotifyPayload`). -/
structure NotifyPayload where
  guildId : String
  voiceChannelId : String
  userId : String
  notificationChannelId : String
  ruleId : String
  ruleName : String
deriving Repr, DecidableEq

/-- Handler-side rule filter from src/handlers/voiceState.ts
`filterApplicableRules`: keep a rule iff its watched set contains the voice
channel and its target set is empty or contains the user. -/
def filterApplicableRules (rules : List NotificationRule)
    (voiceChannelId userId : String) : List NotificationRule :=
  rules.filter (fun rule =>
    if !(rule.watchedVoiceChannelIds.contains voiceChannelId) then false
    else if rule.targetUserIds.length == 0 then true
    else rule.targetUserIds.contains userId)

/-- Rule-service-side filter body of `getApplicableRules` in
src/services/ruleService.ts: the predicate applied to the enabled rules
returned by the store. -/
def getApplicableRulesFilter (rules : List NotificationRule)
    (voiceChannelId userId : String) : List NotificationRule :=
  rules.filter (fun rule =>
    if !(rule.watchedVoiceChannelIds.contains voiceChannelId) then false
    else if rule.targetUserIds.length == 0 then true
    else rule.targetUserIds.contains userId)

/-- Payload built for one rule inside `createUniqueNotifications`. -/
def mkPayload (guildId voiceChannelId userId : String)
    (rule : NotificationRule) : NotifyPayload :=
  { guildId := guildId
    voiceChannelId := voiceChannelId
    userId := userId
    notificationChannelId := rule.notificationChannelId
    ruleId := rule.id
    ruleName := rule.name }

/-- Loop of `createUniqueNotifications` (src/handlers/voiceState.ts): the JS
`Set` of claimed destination channel ids is modelled as a list with
membership tests. -/
def createUniqueNotificationsAux (guildId voiceChannelId userId : String) :
    List NotificationRule → List String → List NotifyPayload
  | [], _ => []
  | rule :: rest, sentChannelIds =>
    if sentChannelIds.contains rule.notificationChannelId then
      createUniqueNotificationsAux guildId voiceChannelId userId rest
        sentChannelIds
    else
      mkPayload guildId voiceChannelId userId rule ::
        createUniqueNotificationsAux guildId voiceChannelId userId rest
          (rule.notificationChannelId :: sentChannelIds)

/-- src/handlers/voiceState.ts `createUniqueNotifications`: one payload per
distinct destination channel, keeping the first rule encountered. -/
def createUniqueNotifications (rules : List NotificationRule)
    (guildId voiceChannelId userId : String) : List NotifyPayload :=
  createUniqueNotificationsAux guildId voiceChannelId userId rules []

/-- Observable behaviour of one `handle(oldState, newState)` call of the
voice-state handler: whether the rule list was requested from the rule
service and which payloads were passed to `sendNotification`. -/
structure HandleResult where
  rulesFetched : Bool
  notifications : List NotifyPayload
deriving Repr, DecidableEq

/-- src/handlers/voiceState.ts `handle`: `oldState.channelId` and
`newState.channelId` are the nullable channel ids; `listRulesResult` is the
outcome of the awaited `ruleService.listRules` call (an `error` models a
thrown exception, which the handler catches and logs). -/
def handle (oldChannelId newChannelId : Option String)
    (guildId userId : String)
    (listRulesResult : Except String (List NotificationRule)) : HandleResult :=
  match oldChannelId with
  | some _ => ⟨false, []⟩
  | none =>
    match newChannelId with
    | none => ⟨false, []⟩
    | some voiceChannelId =>
      match listRulesResult with
      | .error _ => ⟨true, []⟩
      | .ok rules =>
        let candidates := filterApplicableRules rules voiceChannelId userId
        if candidates.length == 0 then ⟨true, []⟩
        else
          let uniqueNotifications :=
            createUniqueNotifications candidates guildId voiceChannelId userId
          if uniqueNotifications.length == 0 then ⟨true, []⟩
          else ⟨true, uniqueNotifications⟩

/-- Generic insertion into a list sorted by a `Nat` key (ascending). -/
def insertByKey {α : Type} (key : α → Nat) (a : α) : List α → List α
  | [] => [a]
  | b :: rest =>
    if key a ≤ key b then a :: b :: rest else b :: insertByKey key a rest

/-- Insertion sort by a `Nat` key, modelling `ORDER BY created_at ASC`. -/
def sortByKey {α : Type} (key : α → Nat) : List α → List α
  | [] => []
  | a :: rest => insertByKey key a (sortByKey key rest)

/-- Store query `findByGuild` (src/repositories/notificationRuleRepository.ts
`selectByGuildStmt`): rows of the guild ordered by creation time ascending,
modelled over a list of domain records. -/
def findByGuildModel (store : List NotificationRule) (guildId : String) :
    List NotificationRule :=
  sortByKey NotificationRule.createdAt
    (store.filter (fun r => r.guildId == guildId))

/-- Store query `findEnabledByGuild` (`selectEnabledByGuildStmt`): enabled
rows of the guild ordered by creation time ascending. -/
def findEnabledByGuildModel (store : List NotificationRule)
    (guildId : String) : List NotificationRule :=
  sortByKey NotificationRule.createdAt
    (store.filter (fun r => r.guildId == guildId && r.enabled))

/-- src/services/ruleService.ts `listRules`: enabled-only unless
`includeDisabled` is set. -/
def listRules (store : List NotificationRule) (guildId : String)
    (includeDisabled : Bool) : List NotificationRule :=
  if includeDisabled then findByGuildModel store guildId
  else findEnabledByGuildModel store guildId

/-- src/services/ruleService.ts `getApplicableRules`: read the enabled rules
for the guild and apply the applicability filter. -/
def getApplicableRules (store : List NotificationRule)
    (guildId voiceChannelId userId : String) : List NotificationRule :=
  getApplicableRulesFilter (findEnabledByGuildModel store guildId)
    voiceChannelId userId

/-- Error taxonomy of src/services/ruleService.ts (the `RuleServiceError`
subclasses `RuleValidationError`, `RuleLimitExceededError`,
`RuleNotFoundError`, `RuleRepositoryConflictError`). -/
inductive RuleServiceErr where
  | validation (violations : List String)
  | limitExceeded (guildId : String) (limit : Nat)
  | notFound (ruleId : String)
  | repositoryConflict (ruleId : String)
deriving Repr, DecidableEq

/-- Constant `RULES_PER_GUILD_LIMIT` from src/services/ruleService.ts. -/
def RULES_PER_GUILD_LIMIT : Nat := 50

/-- The `SNOWFLAKE_REGEX` test of ruleService.ts: 17 to 19 ASCII digits. -/
def isSnowflake (s : String) : Bool :=
  17 ≤ s.length && s.length ≤ 19 && s.toList.all Char.isDigit

/-- ASCII whitespace, for the JS `trim` model. -/
def isJsWhitespace (c : Char) : Bool :=
  c = ' ' || c = '\t' || c = '\n' || c = '\r'

/-- JS `String.prototype.trim` modelled over the ASCII whitespace the
repository's inputs can contain: drop leading and trailing whitespace. -/
def jsTrim (s : String) : String :=
  String.mk
    (((s.toList.dropWhile isJsWhitespace).reverse.dropWhile
        isJsWhitespace).reverse)

/-- Untrusted creation input (`CreateRuleInput` of ruleService.ts). -/
structure CreateRuleInput where
  guildId : String
  name : String
  watchedVoiceChannelIds : List String
  targetUserIds : List String
  notificationChannelId : String
deriving Repr, DecidableEq

/-- Normalized fields produced by `validateCommonRuleFields`. -/
structure NormalizedRuleFields where
  name : String
  watchedVoiceChannelIds : List String
  targetUserIds : List String
  notificationChannelId : String
deriving Repr, DecidableEq

/-- `validateCommonRuleFields` of ruleService.ts: collects every violated
constraint and, when none was violated, the trimmed/normalized fields.  The
JS `Array.isArray` guards cannot fail in the typed embedding. -/
def validateCommonRuleFields (name : String)
    (watchedVoiceChannelIds targetUserIds : List String)
    (notificationChannelId : String) :
    List String × Option NormalizedRuleFields :=
  let nameT := jsTrim name
  let v1 :=
    if nameT.length < 1 || 50 < nameT.length then
      ["name must be between 1 and 50 characters."]
    else []
  let watchedT := watchedVoiceChannelIds.map jsTrim
  let v2 :=
    if watchedT.length < 1 || 10 < watchedT.length then
      ["watchedVoiceChannelIds must contain between 1 and 10 items."]
    else []
  let v3 :=
    if watchedT.any (fun channelId => !isSnowflake channelId) then
      ["watchedVoiceChannelIds must contain valid snowflake IDs."]
    else []
  let targetT := targetUserIds.map jsTrim
  let v4 :=
    if 50 < targetT.length then
      ["targetUserIds must not exceed 50 items."]
    else []
  let v5 :=
    if targetT.any (fun userId => !isSnowflake userId) then
      ["targetUserIds must contain valid snowflake IDs."]
    else []
  let notifT := jsTrim notificationChannelId
  let v6 :=
    if !isSnowflake notifT then
      ["notificationChannelId must be a valid snowflake ID."]
    else []
  let violations := v1 ++ v2 ++ v3 ++ v4 ++ v5 ++ v6
  if violations.length == 0 then
    (violations,
      some ⟨nameT, watchedT, targetT, notifT⟩)
  else (violations, none)

/-- Normalized creation input (`NormalizedCreateRuleInput`). -/
structure NormalizedCreateRuleInput where
  guildId : String
  fields : NormalizedRuleFields
deriving Repr, DecidableEq

/-- `validateCreateRuleInput` of ruleService.ts: common field validation
plus the guild id snowflake check (whose violation is appended last). -/
def validateCreateRuleInput (input : CreateRuleInput) :
    List String × Option NormalizedCreateRuleInput :=
  let common := validateCommonRuleFields input.name
    input.watchedVoiceChannelIds input.targetUserIds
    input.notificationChannelId
  let guildIdT := jsTrim input.guildId
  let gv :=
    if !isSnowflake guildIdT then ["guildId must be a valid snowflake ID."]
    else []
  let violations := common.1 ++ gv
  match common.2 with
  | some fields =>
    if violations.length == 0 then (violations, some ⟨guildIdT, fields⟩)
    else (violations, none)
  | none => (violations, none)

/-- Store query `countByGuild` (`countStmt`): `COUNT(*)` of all rows of the
guild, enabled or not. -/
def countByGuild (store : List NotificationRule) (guildId : String) : Nat :=
  (store.filter (fun r => r.guildId == guildId)).length

/-- `createRule` of src/services/ruleService.ts with the store state made
explicit: validate, check the per-guild quota against `countByGuild`, and
only then insert through the repository.  `genId` and `now` stand for the
repository's injected id generator and clock.  The returned list is the
store state after the call. -/
def createRule (store : List NotificationRule) (genId : String) (now : Nat)
    (input : CreateRuleInput) :
    Except RuleServiceErr NotificationRule × List NotificationRule :=
  match validateCreateRuleInput input with
  | (violations, none) => (.error (.validation violations), store)
  | (_, some normalized) =>
    let ruleCount := countByGuild store normalized.guildId
    if RULES_PER_GUILD_LIMIT ≤ ruleCount then
      (.error (.limitExceeded normalized.guildId RULES_PER_GUILD_LIMIT),
        store)
    else
      let created : NotificationRule :=
        { id := genId
          guildId := normalized.guildId
          name := normalized.fields.name
          watchedVoiceChannelIds := normalized.fields.watchedVoiceChannelIds
          targetUserIds := normalized.fields.targetUserIds
          notificationChannelId := normalized.fields.notificationChannelId
          enabled := true
          createdAt := now
          updatedAt := now }
      (.ok created, store ++ [created])

/-- Repository interface as seen by `toggleRule`: the two store calls it
makes are independent lookups of a store that other writers may touch in
between, so each call is modelled as an arbitrary function (exactly how the
unit tests mock `NotificationRuleRepository`). -/
structure ToggleRepo where
  findById : String → Option NotificationRule
  toggleEnabled : String → Bool → Option NotificationRule

/-- Next enabled state computed by `toggleRule`: the explicit value when
one was passed, else the negation of the current state. -/
def toggleNextState (enabled : Option Bool) (existing : NotificationRule) :
    Bool :=
  match enabled with
  | some b => b
  | none => !existing.enabled

/-- `toggleRule` of src/services/ruleService.ts: existence check via
`findById`, then `toggleEnabled`; a `none` from the store after a positive
existence check is surfaced as the distinct repository-conflict error. -/
def toggleRule (repo : ToggleRepo) (id : String) (enabled : Option Bool) :
    Except RuleServiceErr NotificationRule :=
  match repo.findById id with
  | none => .error (.notFound id)
  | some existing =>
    let nextState := toggleNextState enabled existing
    match repo.toggleEnabled id nextState with
    | none => .error (.repositoryConflict id)
    | some toggled => .ok toggled

/-- A JS number as read off an error object: either a finite value
(modelled as an integer number of milliseconds) or a non-finite one
(`NaN`/`Infinity`), which `Number.isFinite` rejects. -/
inductive JsNumber where
  | fin (ms : Int)
  | nonFinite
deriving Repr, DecidableEq

/-- The `code` property of a JS error: Discord API numeric codes and node
network error strings share this single dynamically-typed field. -/
inductive JsErrCode where
  | num (n : Int)
  | str (s : String)
deriving Repr, DecidableEq

/-- Shape of a remote-API failure as inspected by
src/services/notifyService.ts: `status`, `code`, `retryAfter`/`retry_after`
and the message used for logging. -/
structure DiscordError where
  status : Option Nat := none
  code : Option JsErrCode := none
  retryAfter : Option JsNumber := none
  retry_after : Option JsNumber := none
  message : String := ""
deriving Repr, DecidableEq

/-- Decidable equality for `Except` values, used to evaluate send
outcomes on concrete inputs. -/
instance {ε α : Type} [DecidableEq ε] [DecidableEq α] :
    DecidableEq (Except ε α)
  | .error a, .error b =>
    if h : a = b then .isTrue (h ▸ rfl)
    else .isFalse (fun hEq => h (Except.error.inj hEq))
  | .error _, .ok _ => .isFalse (fun hEq => Except.noConfusion hEq)
  | .ok _, .error _ => .isFalse (fun hEq => Except.noConfusion hEq)
  | .ok a, .ok b =>
    if h : a = b then .isTrue (h ▸ rfl)
    else .isFalse (fun hEq => h (Except.ok.inj hEq))

/-- `isRateLimitError`: a failure whose `status` is 429. -/
def isRateLimitError (e : DiscordError) : Bool :=
  e.status == some 429

/-- `isTransientNetworkErrorCode`: the node error codes treated as
transient. -/
def isTransientNetworkErrorCode (code : String) : Bool :=
  code == "ETIMEDOUT" || code == "ECONNRESET" || code == "ECONNREFUSED" ||
    code == "ENOTFOUND" || code == "EHOSTUNREACH"

/-- `isRetriableError`: rate limits, transient network codes (the string
comparison only succeeds when `code` holds a string) and 5xx statuses. -/
def isRetriableError (e : DiscordError) : Bool :=
  isRateLimitError e ||
    (match e.code with
      | some (.str c) => isTransientNetworkErrorCode c
      | _ => false) ||
    (match e.status with
      | some s => 500 ≤ s && s < 600
      | none => false)

/-- Constant `RATE_LIMIT_FALLBACK_DELAY_MS` of notifyService.ts. -/
def RATE_LIMIT_FALLBACK_DELAY_MS : Int := 1000

/-- Constant `DUPLICATE_WINDOW_DEFAULT_MS` of notifyService.ts. -/
def DUPLICATE_WINDOW_DEFAULT_MS : Nat := 5000

/-- `getRetryAfterMs`: `retryAfter ?? retry_after`, clamped below at 0 when
it is a finite number, else the 1000ms fallback. -/
def getRetryAfterMs (e : DiscordError) : Int :=
  let combined :=
    match e.retryAfter with
    | some v => some v
    | none => e.retry_after
  match combined with
  | some (.fin n) => max 0 n
  | _ => RATE_LIMIT_FALLBACK_DELAY_MS

/-- `getBackoffDelayMs`: linear backoff, 1000ms times the one-based retry
number (`attempt` is the zero-based index of the failed attempt). -/
def getBackoffDelayMs (attempt : Nat) : Int :=
  1000 * (Int.ofNat attempt + 1)

/-- `isPermanentDiscordError`: 404/403 statuses and the Discord API codes
Unknown Channel, Unknown Member, Missing Access, Missing Permissions. -/
def isPermanentDiscordError (e : DiscordError) : Bool :=
  e.status == some 404 || e.status == some 403 ||
    e.code == some (.num 10003) || e.code == some (.num 10007) ||
    e.code == some (.num 50001) || e.code == some (.num 50013)

/-- Constant `maxRetries` of `sendWithRetry` in notifyService.ts. -/
def MAX_SEND_RETRIES : Nat := 1

/-- Observable outcome of one `sendWithRetry` call: number of
`channel.send` attempts made, backoff delays awaited between them, and the
final result (`ok` after a successful send, `error` with the error that was
rethrown otherwise). -/
structure SendOutcome where
  attempts : Nat
  delays : List Int
  result : Except DiscordError Unit
deriving Repr, DecidableEq

/-- Retry loop of `sendWithRetry`: `sendAt attempt` is the outcome of the
`channel.send` call at the given zero-based attempt index (`none` means it
succeeded).  The fuel argument bounds the loop iterations; the caller
passes `MAX_SEND_RETRIES + 1`, which the loop never exhausts. -/
def sendWithRetryAux (sendAt : Nat → Option DiscordError)
    (maxRetries : Nat) : Nat → Nat → SendOutcome
  | _, 0 => ⟨0, [], .ok ()⟩
  | attempt, fuel + 1 =>
    match sendAt attempt with
    | none => ⟨1, [], .ok ()⟩
    | some e =>
      if attempt < maxRetries && isRetriableError e then
        let delayMs :=
          if isRateLimitError e then getRetryAfterMs e
          else getBackoffDelayMs attempt
        let rest := sendWithRetryAux sendAt maxRetries (attempt + 1) fuel
        ⟨rest.attempts + 1, delayMs :: rest.delays, rest.result⟩
      else ⟨1, [], .error e⟩

/-- `sendWithRetry` of src/services/notifyService.ts: run the send loop
from attempt 0 with `maxRetries = 1`. -/
def sendWithRetry (sendAt : Nat → Option DiscordError) : SendOutcome :=
  sendWithRetryAux sendAt MAX_SEND_RETRIES 0 (MAX_SEND_RETRIES + 1)

/-- A channel object as inspected by the notify service: voice/text
type predicates and the presence of a `send` capability. -/
structure Channel where
  name : String := ""
  voiceBased : Bool := false
  textBased : Bool := false
  hasSend : Bool := false
deriving Repr, DecidableEq

/-- A guild member object (only its user identity is read). -/
structure Member where
  tag : String := ""
deriving Repr, DecidableEq

/-- The tagged result type of the resolution helpers (`FetchSuccess`,
`FetchPermanentFailure`, `FetchTemporaryFailure`). -/
inductive FetchResult (α : Type) where
  | success (value : α)
  | permanent (message : String)
  | temporary (error : DiscordError)
deriving Repr, DecidableEq

/-- One remote environment against which a single `sendNotification` call
resolves: the cache lookup and each remote fetch is an oracle describing
what the live platform would answer, and `sendAt` gives the outcome of
each `channel.send` attempt. -/
structure RemoteEnv where
  clientFetchErr : Option DiscordError := none
  guildFetchErr : Option DiscordError := none
  cachedChannel : Option Channel := none
  channelFetch : Except DiscordError (Option Channel) := .ok none
  memberFetch : Except DiscordError Member := .ok {}
  globalChannelFetch : Except DiscordError (Option Channel) := .ok none
  sendAt : Nat → Option DiscordError := fun _ => none

/-- `isVoiceChannel` of notifyService.ts on a possibly-absent channel. -/
def isVoiceChannel : Option Channel → Bool
  | none => false
  | some c => c.voiceBased

/-- `isTextChannel`: text-based and exposing a `send` function. -/
def isTextChannel : Option Channel → Bool
  | none => false
  | some c => c.textBased && c.hasSend

/-- `fetchVoiceChannel`: cached voice channel wins; otherwise fetch, with
permanent errors (and a fetched non-voice or absent channel) reported as
permanent and everything else as temporary. -/
def fetchVoiceChannel (env : RemoteEnv) : FetchResult Channel :=
  match env.cachedChannel with
  | some cached =>
    if cached.voiceBased then .success cached
    else fetchVoiceChannelRemote env
  | none => fetchVoiceChannelRemote env
where
  /-- The `guild.channels.fetch` path of `fetchVoiceChannel`. -/
  fetchVoiceChannelRemote (env : RemoteEnv) : FetchResult Channel :=
    match env.channelFetch with
    | .ok (some fetched) =>
      if fetched.voiceBased then .success fetched
      else .permanent "channel not found"
    | .ok none => .permanent "channel not found"
    | .error e =>
      if isPermanentDiscordError e then .permanent e.message
      else .temporary e

/-- `fetchMember`: fetch the joining member, classifying failures. -/
def fetchMember (env : RemoteEnv) : FetchResult Member :=
  match env.memberFetch with
  | .ok m => .success m
  | .error e =>
    if isPermanentDiscordError e then .permanent e.message
    else .temporary e

/-- `fetchNotificationChannel`: fetch the destination channel, classifying
failures; a channel that is not a sendable text channel is permanent. -/
def fetchNotificationChannel (env : RemoteEnv) : FetchResult Channel :=
  match env.globalChannelFetch with
  | .error e =>
    if isPermanentDiscordError e then .permanent e.message
    else .temporary e
  | .ok ch =>
    match ch with
    | some c =>
      if c.textBased && c.hasSend then .success c
      else .permanent "notification channel is not text based"
    | none => .permanent "notification channel is not text based"

/-- Process-local suppression map `recentNotifications`: each tracked
notification key with the instant (epoch ms) at which its TTL timer fires
and removes it. -/
abbrev NotifyState := List (String × Nat)

/-- `createNotificationKey`: destination, user and watched channel. -/
def createNotificationKey (p : NotifyPayload) : String :=
  p.notificationChannelId ++ ":" ++ p.userId ++ ":" ++ p.voiceChannelId

/-- Expiry instant currently scheduled for a key, if any. -/
def lookupExpiry (st : NotifyState) (key : String) : Option Nat :=
  (List.find? (fun kv => kv.1 == key) st).map (fun kv => kv.2)

/-- `isDuplicate` at instant `t`: a positive window and a key whose TTL
timer has not yet fired (an entry whose timer already fired at or before
`t` has been deleted from the map). -/
def isDuplicate (ttl : Nat) (st : NotifyState) (key : String) (t : Nat) :
    Bool :=
  0 < ttl &&
    (match lookupExpiry st key with
      | some expiry => t < expiry
      | none => false)

/-- `trackNotification` at instant `t`: cancel and remove any existing
timer for the key, then schedule removal at `t + ttl`; a non-positive
window tracks nothing. -/
def trackNotification (ttl : Nat) (st : NotifyState) (key : String)
    (t : Nat) : NotifyState :=
  if ttl = 0 then st
  else (key, t + ttl) :: List.filter (fun kv => !(kv.1 == key)) st

/-- Error raised by `sendNotification`: a client-acquisition or
guild-fetch failure (rethrown as-is), a temporary resolution failure (wrapped with context and id by
`wrapFetchError`), or the send error after retries were exhausted. -/
inductive NotifyError where
  | client (e : DiscordError)
  | guild (e : DiscordError)
  | fetchWrapped (context : String) (id : String) (e : DiscordError)
  | send (e : DiscordError)
deriving Repr, DecidableEq

/-- Result of one `sendNotification` call: a duplicate return, a silent
skip on a permanent resolution failure, a delivery, or a raised error. -/
inductive NotifyOutcome where
  | suppressed
  | skipped (reason : String)
  | delivered
  | raised (err : NotifyError)
deriving Repr, DecidableEq

/-- Full observable behaviour of one `sendNotification` call: suppression
map afterwards, number of `channel.send` attempts, delays awaited between
attempts, and the outcome. -/
structure NotifyRun where
  state : NotifyState
  sendAttempts : Nat
  delays : List Int
  outcome : NotifyOutcome
deriving Repr, DecidableEq

/-- `sendNotification` of src/services/notifyService.ts at instant `t`:
duplicate check, client acquisition and guild fetch (whose failures are
rethrown as they are), then voice channel,
member and destination channel resolution in order — permanent failures
abort silently but still track the key, temporary failures raise without
tracking — then the retrying send, tracking the key only on success. -/
def sendNotification (ttl : Nat) (st : NotifyState) (t : Nat)
    (env : RemoteEnv) (p : NotifyPayload) : NotifyRun :=
  let key := createNotificationKey p
  if isDuplicate ttl st key t then ⟨st, 0, [], .suppressed⟩
  else
    match env.clientFetchErr with
    | some e => ⟨st, 0, [], .raised (.client e)⟩
    | none =>
    match env.guildFetchErr with
    | some e => ⟨st, 0, [], .raised (.guild e)⟩
    | none =>
      match fetchVoiceChannel env with
      | .permanent m => ⟨trackNotification ttl st key t, 0, [], .skipped m⟩
      | .temporary e =>
        ⟨st, 0, [],
          .raised (.fetchWrapped "voice channel" p.voiceChannelId e)⟩
      | .success _ =>
        match fetchMember env with
        | .permanent m =>
          ⟨trackNotification ttl st key t, 0, [], .skipped m⟩
        | .temporary e =>
          ⟨st, 0, [], .raised (.fetchWrapped "guild member" p.userId e)⟩
        | .success _ =>
          match fetchNotificationChannel env with
          | .permanent m =>
            ⟨trackNotification ttl st key t, 0, [], .skipped m⟩
          | .temporary e =>
            ⟨st, 0, [],
              .raised
                (.fetchWrapped "notification channel"
                  p.notificationChannelId e)⟩
          | .success _ =>
            let run := sendWithRetry env.sendAt
            match run.result with
            | .ok _ =>
              ⟨trackNotification ttl st key t, run.attempts, run.delays,
                .delivered⟩
            | .error e =>
              ⟨st, run.attempts, run.delays, .raised (.send e)⟩

/-- JSON values, for modelling the `JSON.parse` call inside the
repository's `parseJsonArray`. -/
inductive Json where
  | null
  | bool (b : Bool)
  | num (n : Int)
  | str (s : String)
  | arr (items : List Json)
  | obj (fields : List (String × Json))

/-- Hexadecimal digit value, for JSON unicode escapes. -/
def hexDigit (c : Char) : Option Nat :=
  if '0' ≤ c && c ≤ '9' then some (c.toNat - 48)
  else if 'a' ≤ c && c ≤ 'f' then some (c.toNat - 87)
  else if 'A' ≤ c && c ≤ 'F' then some (c.toNat - 55)
  else none

/-- Skip JSON whitespace. -/
def skipWs : List Char → List Char
  | c :: rest =>
    if c = ' ' || c = '\t' || c = '\n' || c = '\r' then skipWs rest
    else c :: rest
  | [] => []

/-- Parse the body of a JSON string literal (after the opening quote),
accumulating characters in reverse. -/
def parseStrBody : Nat → List Char → List Char →
    Option (String × List Char)
  | 0, _, _ => none
  | _ + 1, acc, '"' :: rest => some (String.mk acc.reverse, rest)
  | fuel + 1, acc, '\\' :: esc :: rest =>
    match esc with
    | '"' => parseStrBody fuel ('"' :: acc) rest
    | '\\' => parseStrBody fuel ('\\' :: acc) rest
    | '/' => parseStrBody fuel ('/' :: acc) rest
    | 'n' => parseStrBody fuel ('\n' :: acc) rest
    | 't' => parseStrBody fuel ('\t' :: acc) rest
    | 'r' => parseStrBody fuel ('\r' :: acc) rest
    | 'b' => parseStrBody fuel (Char.ofNat 8 :: acc) rest
    | 'f' => parseStrBody fuel (Char.ofNat 12 :: acc) rest
    | 'u' =>
      match rest with
      | h1 :: h2 :: h3 :: h4 :: rest2 =>
        match hexDigit h1, hexDigit h2, hexDigit h3, hexDigit h4 with
        | some a, some b, some c, some d =>
          parseStrBody fuel
            (Char.ofNat (((a * 16 + b) * 16 + c) * 16 + d) :: acc) rest2
        | _, _, _, _ => none
      | _ => none
    | _ => none
  | fuel + 1, acc, c :: rest => parseStrBody fuel (c :: acc) rest
  | _ + 1, _, [] => none

/-- Longest digit prefix of the input. -/
def parseDigits : List Char → List Char × List Char
  | c :: rest =>
    if c.isDigit then
      let (ds, r) := parseDigits rest
      (c :: ds, r)
    else ([], c :: rest)
  | [] => ([], [])

/-- Numeric value of a digit list. -/
def digitsToNat (ds : List Char) : Nat :=
  List.foldl (fun acc c => acc * 10 + (c.toNat - 48)) 0 ds

/-- Parse a JSON integer literal.  Fractional and exponent forms — which
never occur in this repository's stored data (`JSON.stringify` of string
arrays) — are rejected rather than approximated. -/
def parseNumber (input : List Char) : Option (Json × List Char) :=
  let (neg, afterSign) :=
    match input with
    | '-' :: r => (true, r)
    | r => (false, r)
  match parseDigits afterSign with
  | ([], _) => none
  | (ds, rest) =>
    match rest with
    | '.' :: _ => none
    | 'e' :: _ => none
    | 'E' :: _ => none
    | _ =>
      let n : Int := Int.ofNat (digitsToNat ds)
      some (.num (if neg then -n else n), rest)

mutual

/-- Recursive-descent JSON value, modelling `JSON.parse`. -/
def parseValue : Nat → List Char → Option (Json × List Char)
  | 0, _ => none
  | fuel + 1, input =>
    match skipWs input with
    | 'n' :: 'u' :: 'l' :: 'l' :: rest => some (.null, rest)
    | 't' :: 'r' :: 'u' :: 'e' :: rest => some (.bool true, rest)
    | 'f' :: 'a' :: 'l' :: 's' :: 'e' :: rest => some (.bool false, rest)
    | '"' :: rest =>
      match parseStrBody (rest.length + 1) [] rest with
      | some (s, r) => some (.str s, r)
      | none => none
    | '[' :: rest =>
      match skipWs rest with
      | ']' :: rest2 => some (.arr [], rest2)
      | rest2 => parseItems fuel rest2 []
    | '{' :: rest =>
      match skipWs rest with
      | '}' :: rest2 => some (.obj [], rest2)
      | rest2 => parseFields fuel rest2 []
    | other => parseNumber other

/-- Comma-separated JSON array items up to the closing bracket. -/
def parseItems : Nat → List Char → List Json →
    Option (Json × List Char)
  | 0, _, _ => none
  | fuel + 1, input, acc =>
    match parseValue fuel input with
    | none => none
    | some (v, rest) =>
      match skipWs rest with
      | ',' :: rest2 => parseItems fuel rest2 (v :: acc)
      | ']' :: rest2 => some (.arr (v :: acc).reverse, rest2)
      | _ => none

/-- Comma-separated JSON object members up to the closing brace. -/
def parseFields : Nat → List Char → List (String × Json) →
    Option (Json × List Char)
  | 0, _, _ => none
  | fuel + 1, input, acc =>
    match skipWs input with
    | '"' :: rest =>
      match parseStrBody (rest.length + 1) [] rest with
      | none => none
      | some (k, rest1) =>
        match skipWs rest1 with
        | ':' :: rest2 =>
          match parseValue fuel rest2 with
          | none => none
          | some (v, rest3) =>
            match skipWs rest3 with
            | ',' :: rest4 => parseFields fuel rest4 ((k, v) :: acc)
            | '}' :: rest4 => some (.obj ((k, v) :: acc).reverse, rest4)
            | _ => none
        | _ => none
    | _ => none

end

/-- `JSON.parse` on a whole string: a value followed only by whitespace. -/
def jsParse (raw : String) : Option Json :=
  match parseValue (raw.length + 1) raw.toList with
  | some (v, rest) => if (skipWs rest).isEmpty then some v else none
  | none => none

/-- JS `String(item)` on a parsed JSON value. -/
def jsToString : Json → String
  | .null => "null"
  | .bool b => if b then "true" else "false"
  | .num n => toString n
  | .str s => s
  | .obj _ => "[object Object]"
  | .arr items =>
    String.intercalate ","
      (items.attach.map (fun item => jsToString item.1))
decreasing_by
  have hmem := item.2
  have : sizeOf item.1 < sizeOf items := List.sizeOf_lt_of_mem hmem
  simp only [Json.arr.sizeOf_spec]
  omega

/-- `parseJsonArray` of
src/repositories/notificationRuleRepository.ts: `JSON.parse` in a
try/catch; an array maps each item through `String`, everything else —
including a parse failure — falls back to the empty list. -/
def parseJsonArray (raw : String) : List String :=
  match jsParse raw with
  | some (.arr items) => items.map jsToString
  | _ => []

/-- Whether a raw column value parses as a JSON array (the only case in
which `parseJsonArray` does not fall back to the empty list). -/
def isJsonArrayValue (raw : String) : Bool :=
  match jsParse raw with
  | some (.arr _) => true
  | _ => false

/-- One row of the `notification_rules` table (`NotificationRuleRow`); the
two list columns are stored as serialized text, `enabled` as an integer,
and the timestamp columns are modelled as epoch milliseconds. -/
structure NotificationRuleRow where
  id : String
  guild_id : String
  name : String
  watched_voice_channel_ids : String
  target_user_ids : String
  notification_channel_id : String
  enabled : Nat
  created_at : Nat
  updated_at : Nat
deriving Repr, DecidableEq

/-- `mapRowToDomain`: deserialize one row, the two list columns through
`parseJsonArray` and `enabled` through JS `Boolean`. -/
def mapRowToDomain (row : NotificationRuleRow) : NotificationRule :=
  { id := row.id
    guildId := row.guild_id
    name := row.name
    watchedVoiceChannelIds := parseJsonArray row.watched_voice_channel_ids
    targetUserIds := parseJsonArray row.target_user_ids
    notificationChannelId := row.notification_channel_id
    enabled := row.enabled != 0
    createdAt := row.created_at
    updatedAt := row.updated_at }

/-- `mapRowToDomain` together with the log lines the call emits.  The
repository factory receives no logger (its dependencies are the database
handle, the id generator and the clock) and neither `mapRowToDomain` nor
`parseJsonArray` contains a logging statement — the parse failure branch
is a bare fall-through — so the emitted log is empty for every row. -/
def mapRowToDomainLogged (row : NotificationRuleRow) :
    NotificationRule × List String :=
  (mapRowToDomain row, [])

/-- `findById` over the rows of the table (`selectByIdStmt`). -/
def findByIdRows (rows : List NotificationRuleRow) (id : String) :
    Option NotificationRule :=
  (List.find? (fun r => r.id == id) rows).map mapRowToDomain

/-- `findByGuild` over the rows of the table (`selectByGuildStmt` with
`ORDER BY created_at ASC`). -/
def findByGuildRows (rows : List NotificationRuleRow) (guildId : String) :
    List NotificationRule :=
  (sortByKey NotificationRuleRow.created_at
      (rows.filter (fun r => r.guild_id == guildId))).map mapRowToDomain

/-- `findEnabledByGuild` over the rows of the table
(`selectEnabledByGuildStmt`). -/
def findEnabledByGuildRows (rows : List NotificationRuleRow)
    (guildId : String) : List NotificationRule :=
  (sortByKey NotificationRuleRow.created_at
      (rows.filter (fun r => r.guild_id == guildId && r.enabled == 1))).map
    mapRowToDomain

/-! Helper lemmas shared by the claim theorems. -/

/-- Destination channel of the payload built for a rule. -/
theorem mkPayload_notificationChannelId (guildId voiceChannelId userId :
    String) (rule : NotificationRule) :
    (mkPayload guildId voiceChannelId userId rule).notificationChannelId =
      rule.notificationChannelId := rfl

/-- Once a destination is claimed, the dedup loop emits no further payload
for it. -/
theorem createUniqueNotificationsAux_filter_claimed
    (guildId voiceChannelId userId d : String) :
    ∀ (rules : List NotificationRule) (sent : List String),
      sent.contains d = true →
      List.filter (fun p => p.notificationChannelId == d)
          (createUniqueNotificationsAux guildId voiceChannelId userId rules
            sent) = []
  | [], _, _ => rfl
  | rule :: rest, sent, hd => by
    by_cases hc : sent.contains rule.notificationChannelId = true
    · rw [createUniqueNotificationsAux, if_pos hc]
      exact createUniqueNotificationsAux_filter_claimed guildId
        voiceChannelId userId d rest sent hd
    · rw [createUniqueNotificationsAux,
        if_neg (by simpa using hc)]
      have hneq : (rule.notificationChannelId == d) = false := by
        rcases hbeq : rule.notificationChannelId == d with _ | _
        · rfl
        · exact absurd hd (by rw [eq_of_beq hbeq] at hc; simpa using hc)
      rw [List.filter_cons, if_neg (by
        simpa [mkPayload] using hneq)]
      exact createUniqueNotificationsAux_filter_claimed guildId
        voiceChannelId userId d rest
        (rule.notificationChannelId :: sent) (by simp_all)

/-- For an unclaimed destination, the dedup loop emits exactly the payload
of the first rule targeting it (and nothing when no rule does). -/
theorem createUniqueNotificationsAux_filter_first
    (guildId voiceChannelId userId d : String) :
    ∀ (rules : List NotificationRule) (sent : List String),
      sent.contains d = false →
      List.filter (fun p => p.notificationChannelId == d)
          (createUniqueNotificationsAux guildId voiceChannelId userId rules
            sent) =
        (match List.find? (fun r => r.notificationChannelId == d) rules with
          | some r => [mkPayload guildId voiceChannelId userId r]
          | none => [])
  | [], _, _ => rfl
  | rule :: rest, sent, hd => by
    by_cases hc : sent.contains rule.notificationChannelId = true
    · have hneq : (rule.notificationChannelId == d) = false := by
        rcases hbeq : rule.notificationChannelId == d with _ | _
        · rfl
        · exact absurd hc (by rw [eq_of_beq hbeq]; simpa using hd)
      rw [createUniqueNotificationsAux, if_pos hc, List.find?_cons,
        hneq]
      exact createUniqueNotificationsAux_filter_first guildId
        voiceChannelId userId d rest sent hd
    · rw [createUniqueNotificationsAux, if_neg (by simpa using hc)]
      rcases hbeq : rule.notificationChannelId == d with _ | _
      · rw [List.filter_cons, if_neg (by simpa [mkPayload] using hbeq),
          List.find?_cons, hbeq]
        exact createUniqueNotificationsAux_filter_first guildId
          voiceChannelId userId d rest
          (rule.notificationChannelId :: sent) (by
            have hdd : (d == rule.notificationChannelId) = false := by
              rcases hsym : d == rule.notificationChannelId with _ | _
              · rfl
              · rw [eq_of_beq hsym] at hbeq
                simp at hbeq
            simp_all)
      · rw [List.filter_cons, if_pos (by simpa [mkPayload] using hbeq),
          List.find?_cons, hbeq]
        rw [createUniqueNotificationsAux_filter_claimed guildId
          voiceChannelId userId d rest
          (rule.notificationChannelId :: sent) (by
            rw [eq_of_beq hbeq]
            simp)]

/-- The first list element satisfying a predicate has minimal `createdAt`
among the satisfying elements of a creation-time-sorted list. -/
theorem find?_createdAt_min (d : String) :
    ∀ (l : List NotificationRule),
      l.Pairwise (fun a b => a.createdAt ≤ b.createdAt) →
      ∀ first,
        List.find? (fun r => r.notificationChannelId == d) l = some first →
        ∀ r ∈ l, r.notificationChannelId = d →
          first.createdAt ≤ r.createdAt
  | [], _, first, hfind => by simp at hfind
  | a :: l, hpair, first, hfind => by
    rcases hbeq : a.notificationChannelId == d with _ | _
    · rw [List.find?_cons, hbeq] at hfind
      intro r hr hrd
      rcases List.mem_cons.mp hr with hra | hrl
      · exact absurd hbeq (by subst hra; simp [hrd])
      · exact find?_createdAt_min d l (List.Pairwise.of_cons hpair) first
          hfind r hrl hrd
    · rw [List.find?_cons, hbeq] at hfind
      have hfa : first = a := by simpa using hfind.symm
      subst hfa
      intro r hr hrd
      rcases List.mem_cons.mp hr with hra | hrl
      · exact le_of_eq (by rw [hra])
      · exact (List.pairwise_cons.mp hpair).1 r hrl

/-- Insertion by key preserves length. -/
theorem insertByKey_length {α : Type} (key : α → Nat) (a : α) :
    ∀ l : List α, (insertByKey key a l).length = l.length + 1
  | [] => rfl
  | b :: rest => by
    rw [insertByKey]
    by_cases h : key a ≤ key b
    · rw [if_pos h]; rfl
    · rw [if_neg h, List.length_cons, insertByKey_length key a rest,
        List.length_cons]

/-- Sorting by key preserves length. -/
theorem sortByKey_length {α : Type} (key : α → Nat) :
    ∀ l : List α, (sortByKey key l).length = l.length
  | [] => rfl
  | a :: rest => by
    rw [sortByKey, insertByKey_length, sortByKey_length key rest,
      List.length_cons]

/-! Concrete sample data used by the witness theorems. -/

/-- A well-formed rule record, used as concrete witness data. -/
def sampleRule : NotificationRule :=
  { id := "rule-1"
    guildId := "100000000000000001"
    name := "Rule 1"
    watchedVoiceChannelIds := ["200000000000000000"]
    targetUserIds := []
    notificationChannelId := "300000000000000000"
    enabled := true
    createdAt := 1
    updatedAt := 1 }

/-- A second rule sharing `sampleRule`'s destination channel, created
later. -/
def sampleRuleLater : NotificationRule :=
  { sampleRule with
    id := "rule-2"
    name := "Rule 2"
    createdAt := 2
    updatedAt := 2 }

/-! Claim theorems. -/

/-- C1: when a join is matched by two or more enabled rules sharing a
destination channel, the handler dispatches exactly one notification for
that destination, built from the first matching rule in the store's
creation-time-ascending order — which, the matched list being sorted by
creation time, is a matching rule of minimal `createdAt`; later rules for
the claimed destination are dropped. -/
theorem join_dedup_one_notification_per_destination
    (rules : List NotificationRule)
    (guildId voiceChannelId userId d : String)
    (r1 r2 : NotificationRule)
    (hsorted : rules.Pairwise (fun a b => a.createdAt ≤ b.createdAt))
    (henabled : ∀ r ∈ rules, r.enabled = true)
    (h1 : r1 ∈ filterApplicableRules rules voiceChannelId userId)
    (h2 : r2 ∈ filterApplicableRules rules voiceChannelId userId)
    (hd1 : r1.notificationChannelId = d)
    (hd2 : r2.notificationChannelId = d)
    (hne : r1 ≠ r2) :
    ∃ first,
      List.find? (fun r => r.notificationChannelId == d)
          (filterApplicableRules rules voiceChannelId userId) =
        some first ∧
      List.filter (fun p => p.notificationChannelId == d)
          (createUniqueNotifications
            (filterApplicableRules rules voiceChannelId userId) guildId
            voiceChannelId userId) =
        [mkPayload guildId voiceChannelId userId first] ∧
      (∀ r ∈ filterApplicableRules rules voiceChannelId userId,
        r.notificationChannelId = d → first.createdAt ≤ r.createdAt) := by
  have hfindSome :
      (List.find? (fun r => r.notificationChannelId == d)
        (filterApplicableRules rules voiceChannelId userId)).isSome :=
    List.find?_isSome.mpr ⟨r1, h1, by simp [hd1]⟩
  rcases hfind : List.find? (fun r => r.notificationChannelId == d)
      (filterApplicableRules rules voiceChannelId userId) with _ | first
  · rw [hfind] at hfindSome
    simp at hfindSome
  · refine ⟨first, hfind, ?_, ?_⟩
    · rw [createUniqueNotifications,
        createUniqueNotificationsAux_filter_first guildId voiceChannelId
          userId d (filterApplicableRules rules voiceChannelId userId) []
          rfl, hfind]
    · exact find?_createdAt_min d
        (filterApplicableRules rules voiceChannelId userId)
        (List.Pairwise.sublist (List.filter_sublist rules) hsorted) first
        hfind

/-- Witness for C1 at two concrete enabled rules sharing one destination:
exactly the earlier rule's payload is produced. -/
theorem join_dedup_one_notification_per_destination_witness :
    ∃ first,
      List.find?
          (fun r => r.notificationChannelId == "300000000000000000")
          (filterApplicableRules [sampleRule, sampleRuleLater]
            "200000000000000000" "400000000000000000") =
        some first ∧
      List.filter
          (fun p => p.notificationChannelId == "300000000000000000")
          (createUniqueNotifications
            (filterApplicableRules [sampleRule, sampleRuleLater]
              "200000000000000000" "400000000000000000")
            "100000000000000001" "200000000000000000"
            "400000000000000000") =
        [mkPayload "100000000000000001" "200000000000000000"
          "400000000000000000" first] ∧
      (∀ r ∈ filterApplicableRules [sampleRule, sampleRuleLater]
          "200000000000000000" "400000000000000000",
        r.notificationChannelId = "300000000000000000" →
          first.createdAt ≤ r.createdAt) :=
  join_dedup_one_notification_per_destination
    [sampleRule, sampleRuleLater] "100000000000000001"
    "200000000000000000" "400000000000000000" "300000000000000000"
    sampleRule sampleRuleLater (by decide) (by decide) (by decide)
    (by decide) (by decide) (by decide) (by decide)

/-- C7: a leave transition (previous channel non-null, new channel null)
and a move transition (both non-null) make the handler return immediately:
the rule service is never consulted and no payload reaches
`sendNotification`; the rule lookup only ever happens on a join (previous
null and new non-null). -/
theorem handle_leave_move_no_side_effects :
    (∀ (prevChannel guildId userId : String)
        (listRulesResult : Except String (List NotificationRule)),
      handle (some prevChannel) none guildId userId listRulesResult =
        ⟨false, []⟩) ∧
    (∀ (prevChannel newChannel guildId userId : String)
        (listRulesResult : Except String (List NotificationRule)),
      handle (some prevChannel) (some newChannel) guildId userId
          listRulesResult =
        ⟨false, []⟩) ∧
    (∀ (oldChannelId newChannelId : Option String)
        (guildId userId : String)
        (listRulesResult : Except String (List NotificationRule)),
      (handle oldChannelId newChannelId guildId userId
          listRulesResult).rulesFetched = true →
        oldChannelId = none ∧ newChannelId ≠ none) := by
  refine ⟨fun _ _ _ _ => rfl, fun _ _ _ _ _ => rfl, ?_⟩
  intro oldChannelId newChannelId guildId userId listRulesResult h
  match oldChannelId, newChannelId with
  | some _, _ => simp [handle] at h
  | none, none => simp [handle] at h
  | none, some _ => exact ⟨rfl, by simp⟩

/-- Witness for C7: a concrete leave and a concrete move do nothing, and a
concrete join does fetch the rules. -/
theorem handle_leave_move_no_side_effects_witness :
    handle (some "200000000000000000") none "100000000000000001"
        "400000000000000000" (.ok [sampleRule]) = ⟨false, []⟩ ∧
    handle (some "200000000000000000") (some "200000000000000009")
        "100000000000000001" "400000000000000000" (.ok [sampleRule]) =
      ⟨false, []⟩ ∧
    ((none : Option String) = none ∧
      (some "200000000000000000" : Option String) ≠ none) :=
  ⟨handle_leave_move_no_side_effects.1 "200000000000000000"
      "100000000000000001" "400000000000000000" (.ok [sampleRule]),
    handle_leave_move_no_side_effects.2.1 "200000000000000000"
      "200000000000000009" "100000000000000001" "400000000000000000"
      (.ok [sampleRule]),
    handle_leave_move_no_side_effects.2.2 none (some "200000000000000000")
      "100000000000000001" "400000000000000000" (.ok [sampleRule])
      (by decide)⟩

/-- C10: the handler's inline `filterApplicableRules` selects exactly the
rules, in the same order, that the filter inside
`RuleService.getApplicableRules` selects, and the handler's
listRules-then-filter pipeline coincides with `getApplicableRules` on
every store state. -/
theorem handler_filter_equals_service_filter :
    (∀ (rules : List NotificationRule) (voiceChannelId userId : String),
      filterApplicableRules rules voiceChannelId userId =
        getApplicableRulesFilter rules voiceChannelId userId) ∧
    (∀ (store : List NotificationRule)
        (guildId voiceChannelId userId : String),
      filterApplicableRules (listRules store guildId false)
          voiceChannelId userId =
        getApplicableRules store guildId voiceChannelId userId) :=
  ⟨fun _ _ _ => rfl, fun _ _ _ _ => rfl⟩

/-- C2: when the existence check of `toggleRule` finds the rule but the
store's `toggleEnabled` then reports no row changed, `toggleRule` fails
with the repository-conflict error, not with the not-found error. -/
theorem toggleRule_conflict_not_swallowed (repo : ToggleRepo) (id : String)
    (enabled : Option Bool) (existing : NotificationRule)
    (hfind : repo.findById id = some existing)
    (htoggle :
      repo.toggleEnabled id (toggleNextState enabled existing) = none) :
    toggleRule repo id enabled = .error (.repositoryConflict id) ∧
      toggleRule repo id enabled ≠ .error (.notFound id) := by
  have h : toggleRule repo id enabled =
      .error (.repositoryConflict id) := by
    rw [toggleRule, hfind]
    dsimp only
    rw [htoggle]
  refine ⟨h, ?_⟩
  rw [h]
  intro hcon
  exact RuleServiceErr.noConfusion (Except.error.inj hcon)

/-- Repository oracle reproducing the race of C2: the rule exists at the
existence check, but the toggle statement matches no row. -/
def conflictRepo : ToggleRepo :=
  { findById := fun _ => some sampleRule
    toggleEnabled := fun _ _ => none }

/-- Witness for C2 at the concrete racing repository. -/
theorem toggleRule_conflict_not_swallowed_witness :
    toggleRule conflictRepo "rule-1" none =
        .error (.repositoryConflict "rule-1") ∧
      toggleRule conflictRepo "rule-1" none ≠
        .error (.notFound "rule-1") :=
  toggleRule_conflict_not_swallowed conflictRepo "rule-1" none sampleRule
    rfl rfl

/-- C8: for an owner that already has 50 or more rules (enabled or
disabled together), `createRule` on otherwise valid input fails with the
limit-exceeded error and leaves the store untouched: the quota check runs
before any store insert. -/
theorem createRule_limit_no_store_write (store : List NotificationRule)
    (genId : String) (now : Nat) (input : CreateRuleInput)
    (normalized : NormalizedCreateRuleInput)
    (hvalid : validateCreateRuleInput input = ([], some normalized))
    (hcount :
      RULES_PER_GUILD_LIMIT ≤ countByGuild store normalized.guildId) :
    createRule store genId now input =
      (.error (.limitExceeded normalized.guildId RULES_PER_GUILD_LIMIT),
        store) := by
  rw [createRule, hvalid]
  simp only [if_pos hcount]

/-- Creation input that is valid but hits the quota of `limitStore`. -/
def limitInput : CreateRuleInput :=
  { guildId := "100000000000000001"
    name := "Rule 51"
    watchedVoiceChannelIds := ["200000000000000000"]
    targetUserIds := []
    notificationChannelId := "300000000000000000" }

/-- A store already holding 50 rules of the owner of `limitInput`. -/
def limitStore : List NotificationRule := List.replicate 50 sampleRule

/-- Witness for C8: the 51st rule of the owner is rejected and the store
state is returned unchanged. -/
theorem createRule_limit_no_store_write_witness :
    createRule limitStore "rule-51" 51 limitInput =
      (.error (.limitExceeded "100000000000000001"
          RULES_PER_GUILD_LIMIT),
        limitStore) :=
  createRule_limit_no_store_write limitStore "rule-51" 51 limitInput
    ⟨"100000000000000001",
      ⟨"Rule 51", ["200000000000000000"], [], "300000000000000000"⟩⟩
    (by decide) (by decide)

/-- A transient network failure (connection timeout). -/
def transientSendError : DiscordError :=
  { code := some (.str "ETIMEDOUT") }

/-- Counterexample to C3 as stated: when every attempt fails with a
transient network error, `sendWithRetry` makes exactly 2 send attempts —
one retry after the first attempt — not the claimed 3 attempts total. -/
theorem sendWithRetry_not_three_attempts_counterexample :
    (sendWithRetry fun _ => some transientSendError).attempts = 2 ∧
      (sendWithRetry fun _ => some transientSendError).attempts ≠ 3 := by
  exact ⟨rfl, by decide⟩

/-- C3 (amended): a transient network-class failure of the remote send is
retried once after a linear backoff of `(attempt + 1) × 1000` ms — 1000ms
for the single retry — for at most 2 attempts in total, after which the
error of the last attempt propagates; non-retriable failures are never
retried and propagate after the single attempt. -/
theorem sendWithRetry_transient_single_retry (e : DiscordError)
    (sendAt : Nat → Option DiscordError)
    (hretriable : isRetriableError e = true)
    (hnotrate : isRateLimitError e = false)
    (hfirst : sendAt 0 = some e) :
    (∀ e1, sendAt 1 = some e1 →
      sendWithRetry sendAt = ⟨2, [getBackoffDelayMs 0], .error e1⟩) ∧
    (sendAt 1 = none →
      sendWithRetry sendAt = ⟨2, [getBackoffDelayMs 0], .ok ()⟩) ∧
    getBackoffDelayMs 0 = 1000 ∧
    (∀ (sendAt2 : Nat → Option DiscordError) (e0 : DiscordError),
      isRetriableError e0 = false → sendAt2 0 = some e0 →
      sendWithRetry sendAt2 = ⟨1, [], .error e0⟩) := by
  refine ⟨?_, ?_, rfl, ?_⟩
  · intro e1 hsecond
    simp [sendWithRetry, MAX_SEND_RETRIES, sendWithRetryAux, hfirst,
      hsecond, hretriable, hnotrate]
  · intro hsecond
    simp [sendWithRetry, MAX_SEND_RETRIES, sendWithRetryAux, hfirst,
      hsecond, hretriable, hnotrate]
  · intro sendAt2 e0 hnotret hfirst2
    simp [sendWithRetry, MAX_SEND_RETRIES, sendWithRetryAux, hfirst2,
      hnotret]

/-- Witness for C3 (amended) at a persistent connection timeout: two
attempts, one 1000ms backoff, and the error propagates. -/
theorem sendWithRetry_transient_single_retry_witness :
    sendWithRetry (fun _ => some transientSendError) =
      ⟨2, [1000], .error transientSendError⟩ :=
  (sendWithRetry_transient_single_retry transientSendError
    (fun _ => some transientSendError) rfl rfl rfl).1
    transientSendError rfl

/-- C5: a rate-limited first send waits the server-specified retry-after
value — 1000ms when it is absent or non-finite — and is retried exactly
once; a failing retry propagates its error after exactly 2 attempts in
total. -/
theorem sendWithRetry_rate_limit_retry_once (e : DiscordError)
    (sendAt : Nat → Option DiscordError)
    (hrate : isRateLimitError e = true)
    (hfirst : sendAt 0 = some e) :
    (∀ e1, sendAt 1 = some e1 →
      sendWithRetry sendAt = ⟨2, [getRetryAfterMs e], .error e1⟩) ∧
    (sendAt 1 = none →
      sendWithRetry sendAt = ⟨2, [getRetryAfterMs e], .ok ()⟩) ∧
    (e.retryAfter = none → e.retry_after = none →
      getRetryAfterMs e = 1000) ∧
    (e.retryAfter = some .nonFinite → getRetryAfterMs e = 1000) ∧
    (e.retryAfter = none → e.retry_after = some .nonFinite →
      getRetryAfterMs e = 1000) := by
  have hret : isRetriableError e = true := by
    rw [isRetriableError, hrate]
    rfl
  refine ⟨?_, ?_, ?_, ?_, ?_⟩
  · intro e1 hsecond
    simp [sendWithRetry, MAX_SEND_RETRIES, sendWithRetryAux, hfirst,
      hsecond, hret, hrate]
  · intro hsecond
    simp [sendWithRetry, MAX_SEND_RETRIES, sendWithRetryAux, hfirst,
      hsecond, hret, hrate]
  · intro h1 h2
    simp [getRetryAfterMs, h1, h2, RATE_LIMIT_FALLBACK_DELAY_MS]
  · intro h1
    simp [getRetryAfterMs, h1, RATE_LIMIT_FALLBACK_DELAY_MS]
  · intro h1 h2
    simp [getRetryAfterMs, h1, h2, RATE_LIMIT_FALLBACK_DELAY_MS]

/-- A rate-limit failure carrying a finite retry-after of 5ms. -/
def rateLimitError : DiscordError :=
  { status := some 429, retryAfter := some (.fin 5) }

/-- Witness for C5 at a persistent rate limit: the 5ms server backoff is
awaited, the single retry fails, and the error propagates after exactly 2
attempts. -/
theorem sendWithRetry_rate_limit_retry_once_witness :
    sendWithRetry (fun _ => some rateLimitError) =
      ⟨2, [5], .error rateLimitError⟩ :=
  (sendWithRetry_rate_limit_retry_once rateLimitError
    (fun _ => some rateLimitError) rfl rfl).1 rateLimitError rfl

/-- C4: resolution failures of the voice channel, the joining member or
the destination channel are classified: a permanent failure silently skips
the intent with zero send attempts while still tracking the notification
key, a transient failure raises the wrapped error to the caller and does
not track the key; for a remote fetch error, permanent is exactly
`isPermanentDiscordError` — everything else is transient and raised. -/
theorem sendNotification_resolution_failure_classes (ttl : Nat)
    (st : NotifyState) (t : Nat) (env : RemoteEnv) (p : NotifyPayload)
    (hdup : isDuplicate ttl st (createNotificationKey p) t = false)
    (hclient : env.clientFetchErr = none)
    (hguild : env.guildFetchErr = none) :
    (∀ m, fetchVoiceChannel env = .permanent m →
      sendNotification ttl st t env p =
        ⟨trackNotification ttl st (createNotificationKey p) t, 0, [],
          .skipped m⟩) ∧
    (∀ e, fetchVoiceChannel env = .temporary e →
      sendNotification ttl st t env p =
        ⟨st, 0, [],
          .raised (.fetchWrapped "voice channel" p.voiceChannelId e)⟩) ∧
    (∀ vc m, fetchVoiceChannel env = .success vc →
      fetchMember env = .permanent m →
      sendNotification ttl st t env p =
        ⟨trackNotification ttl st (createNotificationKey p) t, 0, [],
          .skipped m⟩) ∧
    (∀ vc e, fetchVoiceChannel env = .success vc →
      fetchMember env = .temporary e →
      sendNotification ttl st t env p =
        ⟨st, 0, [], .raised (.fetchWrapped "guild member" p.userId e)⟩) ∧
    (∀ vc mem m, fetchVoiceChannel env = .success vc →
      fetchMember env = .success mem →
      fetchNotificationChannel env = .permanent m →
      sendNotification ttl st t env p =
        ⟨trackNotification ttl st (createNotificationKey p) t, 0, [],
          .skipped m⟩) ∧
    (∀ vc mem e, fetchVoiceChannel env = .success vc →
      fetchMember env = .success mem →
      fetchNotificationChannel env = .temporary e →
      sendNotification ttl st t env p =
        ⟨st, 0, [],
          .raised
            (.fetchWrapped "notification channel" p.notificationChannelId
              e)⟩) ∧
    (∀ e, env.cachedChannel = none → env.channelFetch = .error e →
      fetchVoiceChannel env =
        (if isPermanentDiscordError e then .permanent e.message
          else .temporary e)) := by
  refine ⟨?_, ?_, ?_, ?_, ?_, ?_, ?_⟩
  · intro m hvc
    simp [sendNotification, hdup, hclient, hguild, hvc]
  · intro e hvc
    simp [sendNotification, hdup, hclient, hguild, hvc]
  · intro vc m hvc hm
    simp [sendNotification, hdup, hclient, hguild, hvc, hm]
  · intro vc e hvc hm
    simp [sendNotification, hdup, hclient, hguild, hvc, hm]
  · intro vc mem m hvc hm hch
    simp [sendNotification, hdup, hclient, hguild, hvc, hm, hch]
  · intro vc mem e hvc hm hch
    simp [sendNotification, hdup, hclient, hguild, hvc, hm, hch]
  · intro e hcache hfetch
    rw [fetchVoiceChannel, hcache,
      fetchVoiceChannel.fetchVoiceChannelRemote, hfetch]

/-- Environment for the C4 witness: the voice-channel fetch fails with a
permanent 404. -/
def permanentFailEnv : RemoteEnv :=
  { channelFetch := .error { status := some 404, message := "Unknown Channel" } }

/-- Environment for the C4 witness: the voice-channel fetch fails with a
connection timeout. -/
def transientFailEnv : RemoteEnv :=
  { channelFetch := .error transientSendError }

/-- Payload used by the dispatcher witnesses. -/
def samplePayload : NotifyPayload :=
  { guildId := "100000000000000001"
    voiceChannelId := "200000000000000000"
    userId := "400000000000000000"
    notificationChannelId := "300000000000000000"
    ruleId := "rule-1"
    ruleName := "Rule 1" }

/-- Witness for C4: a permanent 404 on the voice channel skips the intent
with zero attempts and tracks the key; a timeout on the same fetch raises
and leaves the suppression map empty. -/
theorem sendNotification_resolution_failure_classes_witness :
    sendNotification 5000 [] 0 permanentFailEnv samplePayload =
      ⟨trackNotification 5000 [] (createNotificationKey samplePayload) 0,
        0, [], .skipped "Unknown Channel"⟩ ∧
    sendNotification 5000 [] 0 transientFailEnv samplePayload =
      ⟨[], 0, [],
        .raised
          (.fetchWrapped "voice channel" "200000000000000000"
            transientSendError)⟩ :=
  ⟨(sendNotification_resolution_failure_classes 5000 [] 0
      permanentFailEnv samplePayload rfl rfl rfl).1 "Unknown Channel" rfl,
    (sendNotification_resolution_failure_classes 5000 [] 0
      transientFailEnv samplePayload rfl rfl rfl).2.1 transientSendError
      rfl⟩

/-- C6: within one duplicate window (default `DUPLICATE_WINDOW_DEFAULT_MS`
= 5000ms) a key that was successfully dispatched is suppressed without any
remote send, so two identical intents yield exactly one send; once the
key's TTL has elapsed the same intent is sent again, and the successful
send reschedules the key's single TTL entry, overwriting the old one. -/
theorem sendNotification_duplicate_window (ttl t0 t1 t2 : Nat)
    (env : RemoteEnv) (p : NotifyPayload) (vc ch : Channel) (mem : Member)
    (httl : 0 < ttl)
    (hclient : env.clientFetchErr = none)
    (hguild : env.guildFetchErr = none)
    (hvc : fetchVoiceChannel env = .success vc)
    (hmem : fetchMember env = .success mem)
    (hch : fetchNotificationChannel env = .success ch)
    (hsend : env.sendAt 0 = none)
    (hwithin : t1 < t0 + ttl)
    (helapsed : t0 + ttl ≤ t2) :
    sendNotification ttl [] t0 env p =
      ⟨[(createNotificationKey p, t0 + ttl)], 1, [], .delivered⟩ ∧
    sendNotification ttl [(createNotificationKey p, t0 + ttl)] t1 env p =
      ⟨[(createNotificationKey p, t0 + ttl)], 0, [], .suppressed⟩ ∧
    sendNotification ttl [(createNotificationKey p, t0 + ttl)] t2 env p =
      ⟨[(createNotificationKey p, t2 + ttl)], 1, [], .delivered⟩ := by
  have hsendRun : sendWithRetry env.sendAt = ⟨1, [], .ok ()⟩ := by
    simp [sendWithRetry, MAX_SEND_RETRIES, sendWithRetryAux, hsend]
  have httl0 : ttl ≠ 0 := Nat.pos_iff_ne_zero.mp httl
  refine ⟨?_, ?_, ?_⟩
  · simp [sendNotification, isDuplicate, lookupExpiry, hclient, hguild,
      hvc, hmem, hch, hsendRun, trackNotification, httl0]
  · simp [sendNotification, isDuplicate, lookupExpiry, httl, hwithin]
  · simp [sendNotification, isDuplicate, lookupExpiry,
      Nat.not_lt.mpr helapsed, hclient, hguild, hvc, hmem, hch, hsendRun,
      trackNotification, httl0]

/-- Environment for the C6 witness: every remote call succeeds. -/
def happyEnv : RemoteEnv :=
  { cachedChannel := some { name := "vc", voiceBased := true }
    memberFetch := .ok { tag := "tester" }
    globalChannelFetch :=
      .ok (some { name := "notify", textBased := true, hasSend := true }) }

/-- Witness for C6 with the default 5000ms window at instants 0, 4999 and
5000: send, suppress, send again with the TTL entry rescheduled. -/
theorem sendNotification_duplicate_window_witness :
    sendNotification 5000 [] 0 happyEnv samplePayload =
      ⟨[(createNotificationKey samplePayload, 5000)], 1, [],
        .delivered⟩ ∧
    sendNotification 5000 [(createNotificationKey samplePayload, 5000)]
        4999 happyEnv samplePayload =
      ⟨[(createNotificationKey samplePayload, 5000)], 0, [],
        .suppressed⟩ ∧
    sendNotification 5000 [(createNotificationKey samplePayload, 5000)]
        5000 happyEnv samplePayload =
      ⟨[(createNotificationKey samplePayload, 10000)], 1, [],
        .delivered⟩ :=
  sendNotification_duplicate_window 5000 0 4999 5000 happyEnv
    samplePayload { name := "vc", voiceBased := true } { name := "notify", textBased := true, hasSend := true }
    { tag := "tester" } (by decide) rfl rfl rfl rfl rfl rfl (by decide)
    (by decide)

/-- C9 (amended): a stored list column that does not parse as a JSON array
makes `parseJsonArray` fall back to the empty list, and the read
operations still return a domain rule for every row — no parse failure
ever escapes to the caller; `findByGuild`/`findEnabledByGuild` return one
rule per selected row and `findById` maps the found row. -/
theorem repository_reads_fallback_empty :
    (∀ raw, isJsonArrayValue raw = false → parseJsonArray raw = []) ∧
    (∀ rows guildId,
      (findByGuildRows rows guildId).length =
        (rows.filter (fun r => r.guild_id == guildId)).length) ∧
    (∀ rows guildId,
      (findEnabledByGuildRows rows guildId).length =
        (rows.filter
          (fun r => r.guild_id == guildId && r.enabled == 1)).length) ∧
    (∀ rows id row, List.find? (fun r => r.id == id) rows = some row →
      findByIdRows rows id = some (mapRowToDomain row)) ∧
    (∀ row, isJsonArrayValue row.watched_voice_channel_ids = false →
      (mapRowToDomain row).watchedVoiceChannelIds = []) ∧
    (∀ row, isJsonArrayValue row.target_user_ids = false →
      (mapRowToDomain row).targetUserIds = []) := by
  have hfall : ∀ raw, isJsonArrayValue raw = false →
      parseJsonArray raw = [] := by
    intro raw h
    rw [isJsonArrayValue] at h
    rw [parseJsonArray]
    rcases hp : jsParse raw with _ | v
    · rfl
    · rcases v with _ | b | n | s | items | fields
      · rfl
      · rfl
      · rfl
      · rfl
      · rw [hp] at h
        simp at h
      · rfl
  refine ⟨hfall, ?_, ?_, ?_, ?_, ?_⟩
  · intro rows guildId
    rw [findByGuildRows, List.length_map, sortByKey_length]
  · intro rows guildId
    rw [findEnabledByGuildRows, List.length_map, sortByKey_length]
  · intro rows id row hfind
    rw [findByIdRows, hfind]
    rfl
  · intro row h
    rw [mapRowToDomain]
    exact hfall row.watched_voice_channel_ids h
  · intro row h
    rw [mapRowToDomain]
    exact hfall row.target_user_ids h

/-- A stored row whose watched-channel column is not valid JSON. -/
def malformedRow : NotificationRuleRow :=
  { id := "rule-1"
    guild_id := "100000000000000001"
    name := "Rule 1"
    watched_voice_channel_ids := "not-json"
    target_user_ids := "[]"
    notification_channel_id := "300000000000000000"
    enabled := 1
    created_at := 1
    updated_at := 1 }

/-- Counterexample to C9 as stated: at a concrete malformed row the read
does fall back to the empty set, but the emitted log of the mapping call
is empty — no warning is emitted, because the repository read path
performs no logging at all (its factory receives no logger). -/
theorem repository_read_no_warning_counterexample :
    isJsonArrayValue malformedRow.watched_voice_channel_ids = false ∧
    (mapRowToDomainLogged malformedRow).1.watchedVoiceChannelIds = [] ∧
    (mapRowToDomainLogged malformedRow).2 = [] :=
  ⟨rfl, rfl, rfl⟩

/-- Witness for C9 (amended) at the concrete malformed row: the reads
return the rule with the malformed column read as the empty set. -/
theorem repository_reads_fallback_empty_witness :
    parseJsonArray "not-json" = [] ∧
    findByIdRows [malformedRow] "rule-1" =
      some (mapRowToDomain malformedRow) ∧
    (mapRowToDomain malformedRow).watchedVoiceChannelIds = [] :=
  ⟨repository_reads_fallback_empty.1 "not-json" rfl,
    repository_reads_fallback_empty.2.2.2.1 [malformedRow] "rule-1"
      malformedRow rfl,
    repository_reads_fallback_empty.2.2.2.2.1 malformedRow rfl⟩

end VcNotify
